import Mathlib

/-!
Shallow embedding of the emission-metrics repository (climate impact
potentials toolkit) and verification of its specification claims.

Python modules embedded here:
* src/utils/constants.py      -> namespace constants
* src/utils/stats.py          -> namespace stats
* src/simulations/variables.py (get_scaled_climate_sensitivity) -> namespace simvars
* src/metrics/slp.py          -> namespace slp
* src/metrics/co2.py          -> namespace co2
* src/scenarios/temperature_scenarios.py -> namespace temperature_scenarios
* src/uncertainties/total_uncertainties.py and propagation.py -> namespace uncertainties

Machine floats are modelled as real numbers; Python dict/attribute lookups
that can fail are modelled with Option and an explicit Python error type.
External data providers (loading.py, scaling.py, erf.py, ctl_runs.py,
input_selection.py, which read NetCDF/JSON input files) are modelled as
abstract input parameters, as the specification treats them (sections 2
and 6: GriddedDataProvider and multi-model scaling values are inputs the
core consumes).
-/

open Real

noncomputable section

/-- Python runtime errors raised by the embedded code paths. -/
inductive PyErr
  | attributeError (name : String)
  | assertionError (msg : String)
  | keyError (key : String)
  | valueError (msg : String)
  deriving DecidableEq, Repr

namespace constants

/-- List of available pollutants (src/utils/constants.py). -/
def POLLUTANTS : List String := ["SO2", "BC", "CO2", "CH4"]

/-- Climate sensitivity amplitude of the fast box (K/m^2). -/
def C1 : ℝ := 0.631

/-- Climate sensitivity amplitude of the slow box (K/m^2). -/
def C2 : ℝ := 0.429

/-- Timescales of the two climate sensitivity boxes (yr), D = [8.4, 409.5]. -/
def D : Fin 2 → ℝ := ![8.4, 409.5]

/-- Conversion factor from latent heat to precipitation units. -/
def CF : ℝ := 0.034

/-- List of available emission regions. -/
def EMISS_REGIONS : List String := ["NHML", "US", "China", "EastAsia", "India", "Europe"]

/-- List of available emission regions for BC. -/
def BC_EMISS_REGIONS : List String := ["Global", "Asia"]

/-- The value stored under the tau key of a pollutant entry of SPECS:
a scalar lifetime for single-lifetime pollutants, a list of three
timescales for CO2. -/
inductive TauVal
  | scalar (r : ℝ)
  | multi (ls : List ℝ)

/-- One entry of the SPECS dict. Keys that a given pollutant entry does
not define are modelled as none; in particular no entry defines k_std
(the std values for k appear only inside comments of constants.py). -/
structure Spec where
  tau : TauVal
  a0 : Option ℝ
  ai : Option (List ℝ)
  f : Option ℝ
  fp : ℝ
  k : ℝ
  k_std : Option ℝ

/-- Pollutant specific constants (the SPECS dict of src/utils/constants.py).
Lookup of an absent pollutant key yields none (Python KeyError). -/
def SPECS : String → Option Spec
  | "SO2" => some { tau := .scalar (4.35 / 365), a0 := none, ai := none, f := none,
                    fp := -0.4, k := 2.678, k_std := none }
  | "BC" => some { tau := .scalar (6.8 / 365), a0 := none, ai := none, f := none,
                   fp := 1, k := 2.675, k_std := none }
  | "CO2" => some { tau := .multi [172.9, 18.51, 1.186], a0 := some 0.217,
                    ai := some [0.259, 0.338, 0.186], f := none,
                    fp := 1, k := 2.470, k_std := none }
  | "CH4" => some { tau := .scalar (9.7 * 1.24), a0 := none, ai := none, f := some 1.24,
                    fp := 1, k := 2.766, k_std := none }
  | _ => none

/-- Attribute SLP of the constants module: src/utils/constants.py defines
no attribute of that name, so the lookup performed by src/metrics/slp.py
is modelled as none (Python AttributeError). -/
def SLP : Option (List String) := none

/-- Attribute SCENARIOS of the constants module: src/utils/constants.py
defines no attribute of that name, so the lookup performed by
src/scenarios/temperature_scenarios.py is modelled as none. -/
def SCENARIOS : Option (List String) := none

end constants

namespace stats

/-- compute_ratio_std from src/utils/stats.py: first-order propagation of
the standard deviation of a ratio of two variables. -/
def compute_ratio_std (avg_a avg_b std_a std_b cov : ℝ) : ℝ :=
  |avg_a / avg_b| * Real.sqrt
    ((std_a / avg_a) ^ 2 + (std_b / avg_b) ^ 2 + 2 * cov / (avg_a * avg_b))

end stats

namespace simvars

/-- get_scaled_climate_sensitivity from src/simulations/variables.py.
The multi-model temperature scaling factor returned at index 2 of
scaling.get_mm_scaling(pollutant, temperature) is taken as the abstract
input mm_c_scaling (it is derived from PDRMIP model tables external to
this engine). -/
def get_scaled_climate_sensitivity (mm_c_scaling : String → ℝ) (pollutant : String) :
    Except PyErr (Fin 2 → ℝ) :=
  if pollutant ∈ constants.POLLUTANTS then
    .ok ![constants.C1 * mm_c_scaling pollutant, constants.C2 * mm_c_scaling pollutant]
  else
    .error (.assertionError "is not an accepted pollutant")

end simvars

namespace slp

/-- The two sums computed by compute_atp of src/metrics/slp.py
(lines 54-63): the pair (iatp, atp) for a single-lifetime pollutant with
lifetime tau and scaled climate sensitivity c_scaled. -/
def compute_atp_sums (tau : ℝ) (c_scaled : Fin 2 → ℝ) (rad_eff th : ℝ) : ℝ × ℝ :=
  (∑ j : Fin 2, rad_eff * tau * c_scaled j / (tau - constants.D j) *
      (tau * (1 - Real.exp (-th / tau)) -
        constants.D j * (1 - Real.exp (-th / constants.D j))),
   ∑ j : Fin 2, rad_eff * tau * c_scaled j / (tau - constants.D j) *
      (Real.exp (-th / tau) - Real.exp (-th / constants.D j)))

/-- Body of compute_atp of src/metrics/slp.py (lines 46-63): constant
lookups and the two sums, executed after the two assert statements. -/
def compute_atp_body (mm_c_scaling : String → ℝ) (pollutant : String) (rad_eff th : ℝ) :
    Except PyErr (ℝ × ℝ) :=
  match constants.SPECS pollutant with
  | none => .error (.keyError pollutant)
  | some spec =>
    match spec.tau with
    | .multi _ => .error (.keyError "tau")
    | .scalar tau =>
      match simvars.get_scaled_climate_sensitivity mm_c_scaling pollutant with
      | .error e => .error e
      | .ok c_scaled => .ok (compute_atp_sums tau c_scaled rad_eff th)

/-- compute_atp of src/metrics/slp.py, including its two assert guards:
the time-horizon assert (line 42) runs first, then the pollutant guard
(line 43) evaluates constants.SLP, an attribute the constants module does
not define. -/
def compute_atp (mm_c_scaling : String → ℝ) (pollutant : String) (rad_eff th : ℝ) :
    Except PyErr (ℝ × ℝ) :=
  if 5 ≤ th then
    match constants.SLP with
    | none => .error (.attributeError "SLP")
    | some slp_list =>
      if pollutant ∈ slp_list then compute_atp_body mm_c_scaling pollutant rad_eff th
      else .error (.assertionError "is not an accepted pollutant")
  else .error (.assertionError "The chosen time horizon is smaller than 5.")

/-- The six expressions computed by compute_app of src/metrics/slp.py
(lines 129-145) from the temperature potentials iagtp and agtp. -/
def app_formulas (tau fp k iagtp agtp rad_eff_a th rr_precip_avg precip_avg : ℝ) :
    ℝ × ℝ × ℝ × ℝ × ℝ × ℝ :=
  let iarpp := constants.CF *
    (k * iagtp - fp * rad_eff_a * tau * (1 - Real.exp (-th / tau))) *
    (rr_precip_avg / precip_avg)
  let slow_iarpp := constants.CF * k * iagtp * (rr_precip_avg / precip_avg)
  let fast_iarpp := constants.CF * (-fp) * rad_eff_a * tau * (1 - Real.exp (-th / tau)) *
    (rr_precip_avg / precip_avg)
  let arpp := constants.CF * (k * agtp - fp * rad_eff_a * Real.exp (-th / tau)) *
    (rr_precip_avg / precip_avg)
  let slow_arpp := constants.CF * k * agtp * (rr_precip_avg / precip_avg)
  let fast_arpp := constants.CF * (-fp) * rad_eff_a * Real.exp (-th / tau) *
    (rr_precip_avg / precip_avg)
  (iarpp, slow_iarpp, fast_iarpp, arpp, slow_arpp, fast_arpp)

/-- The value-level composition of compute_app of src/metrics/slp.py:
the six returned expressions with the temperature potentials given by the
compute_atp sums. -/
def compute_app_sums (tau fp k : ℝ) (c_scaled : Fin 2 → ℝ)
    (rad_eff rad_eff_a th rr_precip_avg precip_avg : ℝ) : ℝ × ℝ × ℝ × ℝ × ℝ × ℝ :=
  app_formulas tau fp k
    (compute_atp_sums tau c_scaled rad_eff th).1
    (compute_atp_sums tau c_scaled rad_eff th).2
    rad_eff_a th rr_precip_avg precip_avg

/-- compute_app of src/metrics/slp.py with its assert guards (lines
116-117), constant lookups, the nested call of compute_atp (line 126) and
the six returned expressions. -/
def compute_app (mm_c_scaling : String → ℝ) (pollutant : String)
    (rad_eff rad_eff_a th rr_precip_avg precip_avg : ℝ) :
    Except PyErr (ℝ × ℝ × ℝ × ℝ × ℝ × ℝ) :=
  if 5 ≤ th then
    match constants.SLP with
    | none => .error (.attributeError "SLP")
    | some slp_list =>
      if pollutant ∈ slp_list then
        match constants.SPECS pollutant with
        | none => .error (.keyError pollutant)
        | some spec =>
          match spec.tau with
          | .multi _ => .error (.keyError "tau")
          | .scalar tau =>
            match compute_atp mm_c_scaling pollutant rad_eff th with
            | .error e => .error e
            | .ok (iagtp, agtp) =>
              .ok (app_formulas tau spec.fp spec.k iagtp agtp rad_eff_a th
                    rr_precip_avg precip_avg)
      else .error (.assertionError "is not an accepted pollutant")
  else .error (.assertionError "The chosen time horizon is smaller than 5.")

end slp

namespace co2

/-- Module constant A0 of src/metrics/co2.py (SPECS of CO2, key a0). -/
def A0 : ℝ := 0.217

/-- Module constant Ai of src/metrics/co2.py (SPECS of CO2, key ai). -/
def Ai : Fin 3 → ℝ := ![0.259, 0.338, 0.186]

/-- Module constant TAU of src/metrics/co2.py (SPECS of CO2, key tau). -/
def TAU : Fin 3 → ℝ := ![172.9, 18.51, 1.186]

/-- Module constant Fp of src/metrics/co2.py (SPECS of CO2, key fp). -/
def Fp : ℝ := 1

/-- Module constant K of src/metrics/co2.py (SPECS of CO2, key k). -/
def K : ℝ := 2.470

/-- compute_atp of src/metrics/co2.py: the pair (iatp, atp) for CO2.
The module-level C_SCALED vector (computed at import time from
get_scaled_climate_sensitivity applied to CO2) is passed as the abstract
input c_scaled. -/
def compute_atp (c_scaled : Fin 2 → ℝ) (rad_eff th : ℝ) : ℝ × ℝ :=
  (rad_eff * ∑ j : Fin 2,
      (A0 * c_scaled j * (th - constants.D j * (1 - Real.exp (-th / constants.D j))) +
       ∑ i : Fin 3, Ai i * TAU i * c_scaled j / (TAU i - constants.D j) *
         (TAU i * (1 - Real.exp (-th / TAU i)) -
           constants.D j * (1 - Real.exp (-th / constants.D j)))),
   rad_eff * ∑ j : Fin 2,
      (A0 * c_scaled j * (1 - Real.exp (-th / constants.D j)) +
       ∑ i : Fin 3, Ai i * TAU i * c_scaled j / (TAU i - constants.D j) *
         (Real.exp (-th / TAU i) - Real.exp (-th / constants.D j))))

/-- compute_app of src/metrics/co2.py: the six returned expressions
(iarpp, slow_iarpp, fast_iarpp, arpp, slow_arpp, fast_arpp). -/
def compute_app (c_scaled : Fin 2 → ℝ) (rad_eff rad_eff_a th rr_precip_avg precip_avg : ℝ) :
    ℝ × ℝ × ℝ × ℝ × ℝ × ℝ :=
  let iagtp := (compute_atp c_scaled rad_eff th).1
  let agtp := (compute_atp c_scaled rad_eff th).2
  let iarpp := constants.CF * (K * iagtp - Fp * rad_eff_a *
      (A0 * th + ∑ i : Fin 3, Ai i * TAU i * (1 - Real.exp (-th / TAU i)))) *
    (rr_precip_avg / precip_avg)
  let slow_iarpp := constants.CF * K * iagtp * (rr_precip_avg / precip_avg)
  let fast_iarpp := constants.CF * (-Fp * rad_eff_a *
      (A0 * th + ∑ i : Fin 3, Ai i * TAU i * (1 - Real.exp (-th / TAU i)))) *
    (rr_precip_avg / precip_avg)
  let arpp := constants.CF * (K * agtp - Fp * rad_eff_a *
      (A0 + ∑ i : Fin 3, Ai i * Real.exp (-th / TAU i))) *
    (rr_precip_avg / precip_avg)
  let slow_arpp := constants.CF * K * agtp * (rr_precip_avg / precip_avg)
  let fast_arpp := constants.CF * (-Fp * rad_eff_a *
      (A0 + ∑ i : Fin 3, Ai i * Real.exp (-th / TAU i))) *
    (rr_precip_avg / precip_avg)
  (iarpp, slow_iarpp, fast_iarpp, arpp, slow_arpp, fast_arpp)

end co2

namespace temperature_scenarios

/-- compute_time_step_temperature of src/scenarios/temperature_scenarios.py:
trapezoidal discrete convolution of the emission list with the ARTP series.
Python lists are modelled as functions from indices to reals. -/
def compute_time_step_temperature (index : ℕ) (emissions artp : ℕ → ℝ)
    (time_step : ℝ) : ℝ :=
  if index = 0 then
    emissions index * (time_step * artp index / 2)
  else
    ∑ i ∈ Finset.range index,
      emissions i * (time_step * (artp (index - i) + artp (index - i - 1)) / 2)

/-- One iteration of the segment loop of compute_mixed_scenarios_temperature
(src/scenarios/temperature_scenarios.py lines 166-177): overwrite the
entries of the emission array with indices in [prev_thn, curr_thn)
according to the segment shape; a shape that is none of linear, sustained
or quadratic writes nothing. -/
def write_segment (shape : String) (prev_thn curr_thn : ℕ) (prev_scen scen : ℝ)
    (e : ℕ → ℝ) : ℕ → ℝ :=
  fun t =>
    if prev_thn ≤ t ∧ t < curr_thn then
      if shape = "linear" then
        prev_scen + scen * (((t : ℝ) - (prev_thn : ℝ) + 1) / ((curr_thn : ℝ) - (prev_thn : ℝ)))
      else if shape = "sustained" then
        prev_scen + scen
      else if shape = "quadratic" then
        prev_scen + scen *
          (((t : ℝ) - (prev_thn : ℝ) + 1) / ((curr_thn : ℝ) - (prev_thn : ℝ))) ^ 2
      else e t
    else e t

/-- The per-segment emission mass of compute_mixed_scenarios_temperature
(lines 147-155): for CO2 the loaded emission mass is renormalised by the
weighted decay timescales of segment i, otherwise it is used unchanged. -/
def seg_tot_mass (pollutant : String) (delta_emiss_mass : ℝ) (time_horizons : List ℕ)
    (i : ℕ) : ℝ :=
  if pollutant = "CO2" then
    let dth_i : ℝ :=
      if 0 < i then (time_horizons.getD i 0 : ℝ) - (time_horizons.getD (i - 1) 0 : ℝ)
      else (time_horizons.getD i 0 : ℝ)
    let s := co2.A0 * (time_horizons.getD 0 0 : ℝ) +
      ∑ l : Fin 3, co2.Ai l * (if co2.TAU l < dth_i then co2.TAU l else dth_i)
    delta_emiss_mass / s
  else delta_emiss_mass

/-- The emission trajectory built by the segment loop of
compute_mixed_scenarios_temperature (lines 140-177), starting from the
zero array; list indexing is modelled with getD (the accepted calls index
within bounds). -/
def mixed_scen_emiss (pollutant : String) (delta_emiss_mass : ℝ) (magnitudes : List ℝ)
    (emiss_scenarios : List String) (time_horizons : List ℕ) (n_steps : ℕ) : ℕ → ℝ :=
  (List.range emiss_scenarios.length).foldl (fun e i =>
    let curr_thn := time_horizons.getD i 0 * n_steps
    let sign : ℝ := if pollutant = "SO2" then -1 else 1
    let tot := seg_tot_mass pollutant delta_emiss_mass time_horizons i
    let prev_thn := if 0 < i then time_horizons.getD (i - 1) 0 * n_steps else 0
    let prev_scen : ℝ :=
      if 0 < i then sign * tot * (magnitudes.getD (i - 1) 0 - 100) / 100 else 0
    let scen : ℝ :=
      if 0 < i then sign * tot * (magnitudes.getD i 0 - magnitudes.getD (i - 1) 0) / 100
      else sign * tot * (magnitudes.getD i 0 - 100) / 100
    write_segment (emiss_scenarios.getD i "") prev_thn curr_thn prev_scen scen e)
    (fun _ => 0)

/-- The part of compute_mixed_scenarios_temperature that follows the two
entry guards (lines 118-182): step count, maximum time horizon (Python
max raises ValueError on an empty list), ARTP length assert, trajectory
construction and convolution. The emission mass loaded by
loading.load_emissions is the abstract input delta_emiss_mass, and the
ARTP array is a function together with its length. -/
def compute_mixed_after_guards (delta_emiss_mass : ℝ) (pollutant : String)
    (magnitudes : List ℝ) (emiss_scenarios : List String) (time_horizons : List ℕ)
    (artp : ℕ → ℝ) (artp_len : ℕ) (time_step : ℝ) : Except PyErr (List ℝ) :=
  let n_steps : ℕ := ⌊(1 : ℝ) / time_step⌋₊
  match time_horizons with
  | [] => .error (.valueError "max arg is an empty sequence")
  | h :: t =>
    let max_th := t.foldl max h
    if max_th * n_steps = artp_len then
      let e := mixed_scen_emiss pollutant delta_emiss_mass magnitudes emiss_scenarios
        time_horizons n_steps
      .ok ((List.range (max_th * n_steps)).map fun tt =>
        compute_time_step_temperature tt e artp time_step)
    else .error (.assertionError "The total number of steps does not correspond to the length of the ARTP")

/-- compute_mixed_scenarios_temperature of
src/scenarios/temperature_scenarios.py: the scenario-count assert (line
108) runs first; the scenario-type loop (lines 114-115) then evaluates
constants.SCENARIOS, an attribute the constants module does not define,
as soon as the scenario list is non-empty. -/
def compute_mixed_scenarios_temperature (delta_emiss_mass : ℝ) (pollutant : String)
    (magnitudes : List ℝ) (emiss_scenarios : List String) (time_horizons : List ℕ)
    (artp : ℕ → ℝ) (artp_len : ℕ) (time_step : ℝ) : Except PyErr (List ℝ) :=
  if emiss_scenarios.length = time_horizons.length then
    match emiss_scenarios with
    | [] =>
      compute_mixed_after_guards delta_emiss_mass pollutant magnitudes emiss_scenarios
        time_horizons artp artp_len time_step
    | _ :: _ =>
      match constants.SCENARIOS with
      | none => .error (.attributeError "SCENARIOS")
      | some scens =>
        if ∀ s ∈ emiss_scenarios, s ∈ scens then
          compute_mixed_after_guards delta_emiss_mass pollutant magnitudes emiss_scenarios
            time_horizons artp artp_len time_step
        else .error (.assertionError "is not a valid scenario type")
  else .error (.assertionError "The number of scenarios does not correspond to the number of time horizons.")

end temperature_scenarios

namespace uncertainties

/-- External statistical inputs consumed by the uncertainty propagation
functions: the outputs of climate_variables.get_climate_stats /
get_climate_stats (per-region and global temperature and precipitation
averages with the standard errors of the regional-to-global ratios), of
erf.get_bc_regional_uncertainty, erf.get_so2_regional_uncertainty and
erf.get_global_uncertainty, of input_selection.get_response_regions, and
of scaling.get_mm_scaling (indices 2 and 3). All of these read ensemble
data files, so they are modelled as inputs. -/
structure UncInputs where
  response_region_names : List String
  reg_temp_avg : ℕ → ℝ
  glo_temp_avg : ℝ
  temp_ratio_std_err : ℕ → ℝ
  reg_precip_avg : ℕ → ℝ
  glo_precip_avg : ℝ
  precip_ratio_std_err : ℕ → ℝ
  bc_regional : ℝ × ℝ × ℝ × ℝ
  so2_regional : ℝ × ℝ
  global_unc : ℝ × ℝ × ℝ × ℝ
  c_scaling_avg : ℝ
  c_scaling_std_err : ℝ

/-- The per-region ARTP relative-uncertainty term of
src/uncertainties/total_uncertainties.py lines 110-116 (identical in
src/uncertainties/propagation.py lines 163-169). -/
def artp_term (reg_erf_std_err reg_erf_avg glo_erf_std_err glo_erf_avg
    t_ratio_std_err reg_t_avg glo_t_avg c_scaling_std_err c_scaling_avg : ℝ) : ℝ :=
  Real.sqrt ((reg_erf_std_err / reg_erf_avg) ^ 2 + (glo_erf_std_err / glo_erf_avg) ^ 2 +
    (t_ratio_std_err / (reg_t_avg / glo_t_avg)) ^ 2 +
    (c_scaling_std_err / c_scaling_avg) ^ 2)

/-- The per-region slow-ARPP relative-uncertainty term of
src/uncertainties/total_uncertainties.py lines 119-126 (identical in
src/uncertainties/propagation.py lines 171-176). -/
def slow_arpp_term (reg_erf_std_err reg_erf_avg glo_erf_std_err glo_erf_avg
    p_ratio_std_err reg_p_avg glo_p_avg c_scaling_std_err c_scaling_avg k_std k : ℝ) : ℝ :=
  Real.sqrt ((reg_erf_std_err / reg_erf_avg) ^ 2 + (glo_erf_std_err / glo_erf_avg) ^ 2 +
    (p_ratio_std_err / (reg_p_avg / glo_p_avg)) ^ 2 +
    (c_scaling_std_err / c_scaling_avg) ^ 2 + (k_std / k) ^ 2)

/-- The per-region fast-ARPP relative-uncertainty term of
src/uncertainties/total_uncertainties.py lines 129-134 (identical in
src/uncertainties/propagation.py lines 179-183). -/
def fast_arpp_term (reg_erfa_std_err reg_erfa_avg glo_erfa_std_err glo_erfa_avg
    p_ratio_std_err reg_p_avg glo_p_avg : ℝ) : ℝ :=
  Real.sqrt ((reg_erfa_std_err / reg_erfa_avg) ^ 2 + (glo_erfa_std_err / glo_erfa_avg) ^ 2 +
    (p_ratio_std_err / (reg_p_avg / glo_p_avg)) ^ 2)

/-- The regional ERF uncertainty dispatch shared by both propagation
functions: BC uses the multi-model regional uncertainty, SO2 derives the
atmospheric component with fp, CO2 and CH4 use ratio 1 with zero error. -/
def regional_erf (data : UncInputs) (pollutant : String) (fp : ℝ) : ℝ × ℝ × ℝ × ℝ :=
  if pollutant = "BC" then data.bc_regional
  else if pollutant = "SO2" then
    (data.so2_regional.1, data.so2_regional.2,
     fp * data.so2_regional.1, |fp| * data.so2_regional.2)
  else (1, 0, 1, 0)

/-- The three per-region uncertainty lists computed by the final loop of
get_potential_uncertainties (total_uncertainties.py lines 103-137). -/
def uncertainty_lists (data : UncInputs) (pollutant : String) (fp k k_std : ℝ)
    (n_regions : ℕ) : List ℝ × List ℝ × List ℝ :=
  let r := regional_erf data pollutant fp
  let g := data.global_unc
  ((List.range n_regions).map fun i =>
      artp_term r.2.1 r.1 g.2.1 g.1 (data.temp_ratio_std_err i)
        (data.reg_temp_avg i) data.glo_temp_avg data.c_scaling_std_err data.c_scaling_avg,
   (List.range n_regions).map fun i =>
      slow_arpp_term r.2.1 r.1 g.2.1 g.1 (data.precip_ratio_std_err i)
        (data.reg_precip_avg i) data.glo_precip_avg data.c_scaling_std_err
        data.c_scaling_avg k_std k,
   (List.range n_regions).map fun i =>
      fast_arpp_term r.2.2.2 r.2.2.1 g.2.2.2 g.2.2.1 (data.precip_ratio_std_err i)
        (data.reg_precip_avg i) data.glo_precip_avg)

/-- get_potential_uncertainties of src/uncertainties/total_uncertainties.py:
pollutant and emission-region asserts, constant lookups (the k_std lookup
reads a key the SPECS table does not define), response-region resolution
and the three uncertainty lists. -/
def get_potential_uncertainties (data : UncInputs) (pollutant emission_region : String)
    (response_regions : List String) : Except PyErr (List ℝ × List ℝ × List ℝ) :=
  if pollutant ∈ constants.POLLUTANTS then
    if (if pollutant = "BC" then emission_region ∈ constants.BC_EMISS_REGIONS
        else emission_region ∈ constants.EMISS_REGIONS) then
      match constants.SPECS pollutant with
      | none => .error (.keyError pollutant)
      | some spec =>
        match spec.k_std with
        | none => .error (.keyError "k_std")
        | some k_std =>
          let region_names :=
            if "All regions" ∈ response_regions then data.response_region_names
            else response_regions
          .ok (uncertainty_lists data pollutant spec.fp spec.k k_std region_names.length)
    else .error (.assertionError "is not an accepted emission region")
  else .error (.assertionError "is not an accepted pollutant")

/-- error_prop of src/uncertainties/propagation.py: its first statement
is the k_std lookup (line 124), which reads a key the SPECS table does
not define; the remainder computes the same three uncertainty terms,
region-wise for All regions and scalar otherwise (the scalar branch is
modelled at region index 0). -/
def error_prop (data : UncInputs) (pollutant : String) (k fp : ℝ)
    (response_region emission_region : String) : Except PyErr (List ℝ × List ℝ × List ℝ) :=
  match constants.SPECS pollutant with
  | none => .error (.keyError pollutant)
  | some spec =>
    match spec.k_std with
    | none => .error (.keyError "k_std")
    | some k_std =>
      if response_region = "All regions" then
        .ok (uncertainty_lists data pollutant fp k k_std data.response_region_names.length)
      else .ok (uncertainty_lists data pollutant fp k k_std 1)

/-- A concrete input instance used to evaluate the uncertainty functions. -/
def unit_inputs : UncInputs :=
  { response_region_names := ["Global"], reg_temp_avg := fun _ => 1, glo_temp_avg := 1,
    temp_ratio_std_err := fun _ => 0, reg_precip_avg := fun _ => 1, glo_precip_avg := 1,
    precip_ratio_std_err := fun _ => 0, bc_regional := (1, 0, 1, 0), so2_regional := (1, 0),
    global_unc := (1, 0, 1, 0), c_scaling_avg := 1, c_scaling_std_err := 0 }

/-- A concrete input instance whose SO2 regional ERF average is zero with
a non-zero standard error: a zero denominator for the relative-uncertainty
terms of the propagation formulas. -/
def zero_erf_inputs : UncInputs :=
  { response_region_names := ["Global"], reg_temp_avg := fun _ => 1, glo_temp_avg := 1,
    temp_ratio_std_err := fun _ => 0, reg_precip_avg := fun _ => 1, glo_precip_avg := 1,
    precip_ratio_std_err := fun _ => 0, bc_regional := (1, 0, 1, 0),
    so2_regional := (0, 0.1),
    global_unc := (1, 0, 1, 0), c_scaling_avg := 1, c_scaling_std_err := 0 }

end uncertainties

/-- Modelled from the spec: the climate sensitivity vector of claim C1,
C_scaled with entries the amplitudes C1 and C2 each multiplied by the
pollutant c_scaling factor. Stated from the claim wording, for comparison
with the source-derived definitions. -/
def spec_C_scaled (c_scaling : ℝ) : Fin 2 → ℝ :=
  ![constants.C1 * c_scaling, constants.C2 * c_scaling]

/-- Modelled from the spec: the pulse single-lifetime ATP of claim C1,
sum over the two climate boxes of
(rad_eff * tau * C_scaled[j]) / (tau - D[j]) * (exp(-th/tau) - exp(-th/D[j])). -/
def spec_slp_atp (tau c_scaling rad_eff th : ℝ) : ℝ :=
  ∑ j : Fin 2, rad_eff * tau * spec_C_scaled c_scaling j / (tau - constants.D j) *
    (Real.exp (-th / tau) - Real.exp (-th / constants.D j))

/-- Modelled from the spec: the integrated single-lifetime ATP of claim C1,
sum over the two climate boxes of (rad_eff * tau * C_scaled[j]) / (tau - D[j]) *
(tau * (1 - exp(-th/tau)) - D[j] * (1 - exp(-th/D[j]))). -/
def spec_slp_iatp (tau c_scaling rad_eff th : ℝ) : ℝ :=
  ∑ j : Fin 2, rad_eff * tau * spec_C_scaled c_scaling j / (tau - constants.D j) *
    (tau * (1 - Real.exp (-th / tau)) -
      constants.D j * (1 - Real.exp (-th / constants.D j)))

/-- Modelled from the spec: the pulse CO2 ATP of claim C2, rad_eff times
the 8-term sum over the two climate boxes of a constant-concentration
term of weight a0 plus three exponential decay terms. -/
def spec_co2_atp (c_scaled : Fin 2 → ℝ) (rad_eff th : ℝ) : ℝ :=
  rad_eff * ∑ j : Fin 2,
    (co2.A0 * c_scaled j * (1 - Real.exp (-th / constants.D j)) +
     ∑ i : Fin 3, co2.Ai i * co2.TAU i * c_scaled j / (co2.TAU i - constants.D j) *
       (Real.exp (-th / co2.TAU i) - Real.exp (-th / constants.D j)))

/-- The scalar lifetime stored in the SPECS table for a single-lifetime
pollutant (0 as a junk value otherwise); accessor used to state theorems. -/
def slp_tau (pollutant : String) : ℝ :=
  match constants.SPECS pollutant with
  | some spec =>
    match spec.tau with
    | .scalar r => r
    | .multi _ => 0
  | none => 0

end

/-! ## Theorems -/

/-- C7: for all nonzero averages, compute_ratio_std returns
abs (a/b) * sqrt ((std_a/a)^2 + (std_b/b)^2 + 2*cov/(a*b)); with cov = 0
it reduces to abs (a/b) * sqrt ((std_a/a)^2 + (std_b/b)^2), and at
a = 2, b = 1, std_a = 0.1, std_b = 0.05 it equals
2 * sqrt (0.0025 + 0.0025). -/
theorem compute_ratio_std_formula (a b sa sb cov : ℝ) (ha : a ≠ 0) (hb : b ≠ 0) :
    stats.compute_ratio_std a b sa sb cov =
      |a / b| * Real.sqrt ((sa / a) ^ 2 + (sb / b) ^ 2 + 2 * cov / (a * b)) ∧
    stats.compute_ratio_std a b sa sb 0 =
      |a / b| * Real.sqrt ((sa / a) ^ 2 + (sb / b) ^ 2) ∧
    stats.compute_ratio_std 2 1 0.1 0.05 0 = 2 * Real.sqrt (0.0025 + 0.0025) := by
  refine ⟨rfl, ?_, ?_⟩
  · unfold stats.compute_ratio_std
    norm_num
  · unfold stats.compute_ratio_std
    norm_num

/-- Witness for C7 at the concrete input of the claim. -/
theorem compute_ratio_std_formula_witness :
    stats.compute_ratio_std 2 1 0.1 0.05 0 = 2 * Real.sqrt (0.0025 + 0.0025) :=
  (compute_ratio_std_formula 2 1 0.1 0.05 0 (by norm_num) (by norm_num)).2.2

/-- C3: compute_time_step_temperature returns the trapezoidal discrete
convolution sum for every index t > 0 and the half-weighted boundary term
at t = 0; with constant unit artp, unit step and a unit pulse emission it
returns 0.5 at index 0 and 1.0 at index 1. -/
theorem compute_time_step_temperature_convolution (t : ℕ) (emissions artp : ℕ → ℝ)
    (dt : ℝ) :
    (0 < t → temperature_scenarios.compute_time_step_temperature t emissions artp dt =
      ∑ i ∈ Finset.range t, emissions i * dt * (artp (t - i) + artp (t - i - 1)) / 2) ∧
    temperature_scenarios.compute_time_step_temperature 0 emissions artp dt =
      emissions 0 * dt * artp 0 / 2 ∧
    temperature_scenarios.compute_time_step_temperature 0
      (fun n => if n = 0 then 1 else 0) (fun _ => 1) 1 = 0.5 ∧
    temperature_scenarios.compute_time_step_temperature 1
      (fun n => if n = 0 then 1 else 0) (fun _ => 1) 1 = 1 := by
  refine ⟨fun ht => ?_, ?_, ?_, ?_⟩
  · unfold temperature_scenarios.compute_time_step_temperature
    rw [if_neg (Nat.pos_iff_ne_zero.mp ht)]
    exact Finset.sum_congr rfl fun i _ => by ring
  · unfold temperature_scenarios.compute_time_step_temperature
    rw [if_pos rfl]
    ring
  · unfold temperature_scenarios.compute_time_step_temperature
    norm_num
  · unfold temperature_scenarios.compute_time_step_temperature
    rw [if_neg one_ne_zero]
    simp [Finset.sum_range_one]

/-- Witness for C3: the convolution equation instantiated at t = 1. -/
theorem compute_time_step_temperature_convolution_witness :
    temperature_scenarios.compute_time_step_temperature 1 (fun _ => 1) (fun _ => 1) 1 =
      ∑ i ∈ Finset.range 1, (fun _ => (1 : ℝ)) i * 1 *
        ((fun _ => (1 : ℝ)) (1 - i) + (fun _ => (1 : ℝ)) (1 - i - 1)) / 2 :=
  (compute_time_step_temperature_convolution 1 (fun _ => 1) (fun _ => 1) 1).1 one_pos

/-- C9 (amended): with the time-horizon assert satisfied, every call of
slp.compute_atp and slp.compute_app fails with AttributeError at the
pollutant guard, because the constants module defines no attribute SLP;
and every call of compute_mixed_scenarios_temperature whose non-empty
scenario list passes the length assert fails with AttributeError at the
scenario-type guard, because constants.SCENARIOS is likewise undefined. -/
theorem undefined_constants_attribute_errors :
    (∀ (mm : String → ℝ) (p : String) (rad_eff th : ℝ), 5 ≤ th →
      slp.compute_atp mm p rad_eff th = .error (.attributeError "SLP")) ∧
    (∀ (mm : String → ℝ) (p : String) (rad_eff rad_eff_a th rr glo : ℝ), 5 ≤ th →
      slp.compute_app mm p rad_eff rad_eff_a th rr glo =
        .error (.attributeError "SLP")) ∧
    (∀ (mass : ℝ) (p : String) (mags : List ℝ) (scens : List String) (ths : List ℕ)
      (artp : ℕ → ℝ) (alen : ℕ) (dt : ℝ), scens ≠ [] → scens.length = ths.length →
      temperature_scenarios.compute_mixed_scenarios_temperature mass p mags scens ths
        artp alen dt = .error (.attributeError "SCENARIOS")) := by
  refine ⟨fun mm p r th hth => ?_, fun mm p r ra th rr gl hth => ?_,
    fun m p mg sc ths a al dt hne hlen => ?_⟩
  · unfold slp.compute_atp
    rw [if_pos hth]
    rfl
  · unfold slp.compute_app
    rw [if_pos hth]
    rfl
  · unfold temperature_scenarios.compute_mixed_scenarios_temperature
    rw [if_pos hlen]
    match sc, hne with
    | s :: rest, _ => rfl

/-- Counterexample for C9 as stated: a call of
compute_mixed_scenarios_temperature with a non-empty scenario list but a
mismatched time-horizon list fails at the length assert with an
AssertionError, not at the scenario-type guard with an AttributeError. -/
theorem mixed_scenarios_length_guard_first :
    temperature_scenarios.compute_mixed_scenarios_temperature 1 "BC" [150] ["sustained"]
      [] (fun _ => 0) 0 1 =
      .error (.assertionError "The number of scenarios does not correspond to the number of time horizons.") ∧
    temperature_scenarios.compute_mixed_scenarios_temperature 1 "BC" [150] ["sustained"]
      [] (fun _ => 0) 0 1 ≠ .error (.attributeError "SCENARIOS") := by
  constructor
  · rfl
  · intro h
    exact absurd (Except.error.inj h) (by decide)

/-- Witness for C9: the AttributeError at a concrete accepted call. -/
theorem undefined_constants_attribute_errors_witness :
    slp.compute_atp (fun _ => 1) "SO2" 1 20 = .error (.attributeError "SLP") ∧
    temperature_scenarios.compute_mixed_scenarios_temperature 1 "SO2" [150, 100]
      ["sustained", "linear"] [30, 60] (fun _ => 0) 6000 0.01 =
      .error (.attributeError "SCENARIOS") :=
  ⟨undefined_constants_attribute_errors.1 (fun _ => 1) "SO2" 1 20 (by norm_num),
   undefined_constants_attribute_errors.2.2 1 "SO2" [150, 100] ["sustained", "linear"]
     [30, 60] (fun _ => 0) 6000 0.01 (by decide) (by decide)⟩

/-- C10: every call of get_potential_uncertainties that passes the
pollutant and emission-region asserts fails with KeyError at the k_std
lookup, because no SPECS entry defines that key; every call of error_prop
with a pollutant key present in SPECS fails the same way at its first
statement. -/
theorem k_std_key_error :
    (∀ (data : uncertainties.UncInputs) (p er : String) (rr : List String),
      p ∈ constants.POLLUTANTS →
      (if p = "BC" then er ∈ constants.BC_EMISS_REGIONS
       else er ∈ constants.EMISS_REGIONS) →
      uncertainties.get_potential_uncertainties data p er rr =
        .error (.keyError "k_std")) ∧
    (∀ (data : uncertainties.UncInputs) (p : String) (k fp : ℝ) (r er : String),
      p ∈ constants.POLLUTANTS →
      uncertainties.error_prop data p k fp r er = .error (.keyError "k_std")) := by
  constructor
  · intro data p er rr hp her
    unfold uncertainties.get_potential_uncertainties
    rw [if_pos hp, if_pos her]
    fin_cases hp <;> rfl
  · intro data p k fp r er hp
    unfold uncertainties.error_prop
    fin_cases hp <;> rfl

/-- Witness for C10 at a concrete accepted call. -/
theorem k_std_key_error_witness :
    uncertainties.get_potential_uncertainties uncertainties.unit_inputs "SO2" "Europe"
      ["Global"] = .error (.keyError "k_std") ∧
    uncertainties.error_prop uncertainties.unit_inputs "CH4" 2.766 1 "Global" "Europe" =
      .error (.keyError "k_std") :=
  ⟨k_std_key_error.1 uncertainties.unit_inputs "SO2" "Europe" ["Global"] (by decide)
     (by decide),
   k_std_key_error.2 uncertainties.unit_inputs "CH4" 2.766 1 "Global" "Europe" (by decide)⟩

/-- C8 (code evaluation): for every time horizon below 5, slp.compute_atp
and slp.compute_app fail at their first statement with the AssertionError
message that names the violated minimum, before any potential value (or
any other lookup) is computed. -/
theorem slp_th_guard_rejects_small_horizons (mm : String → ℝ) (p : String)
    (rad_eff rad_eff_a th rr glo : ℝ) (hth : th < 5) :
    slp.compute_atp mm p rad_eff th =
      .error (.assertionError "The chosen time horizon is smaller than 5.") ∧
    slp.compute_app mm p rad_eff rad_eff_a th rr glo =
      .error (.assertionError "The chosen time horizon is smaller than 5.") := by
  constructor
  · unfold slp.compute_atp
    rw [if_neg (not_le.mpr hth)]
  · unfold slp.compute_app
    rw [if_neg (not_le.mpr hth)]

/-- Witness for C8 at th = 4. -/
theorem slp_th_guard_rejects_small_horizons_witness :
    slp.compute_atp (fun _ => 1) "SO2" 1 4 =
      .error (.assertionError "The chosen time horizon is smaller than 5.") :=
  (slp_th_guard_rejects_small_horizons (fun _ => 1) "SO2" 1 1 4 1 1 (by norm_num)).1

/-- C1 (amended): for each single-lifetime pollutant and any time horizon
at least 5, the arithmetic body of slp.compute_atp (the code after its
assert statements, which the broken pollutant guard currently prevents
from running) produces exactly the pair (iatp, atp) of the claim, with
the SPECS lifetime of the pollutant and the scaled climate sensitivity
C_scaled[j] = C_j times the multi-model c_scaling factor. -/
theorem slp_compute_atp_body_formula (mm : String → ℝ) (rad_eff th : ℝ) (p : String)
    (hp : p = "SO2" ∨ p = "BC" ∨ p = "CH4") (hth : 5 ≤ th) :
    slp.compute_atp_body mm p rad_eff th =
      .ok (spec_slp_iatp (slp_tau p) (mm p) rad_eff th,
           spec_slp_atp (slp_tau p) (mm p) rad_eff th) := by
  rcases hp with rfl | rfl | rfl <;> rfl

/-- Counterexample for C1 as stated: at the accepted input SO2 with
th = 10, compute_atp itself does not return the claimed pair (it raises
AttributeError at the pollutant guard, see the C9 theorem). -/
theorem slp_compute_atp_never_returns :
    slp.compute_atp (fun _ => 1) "SO2" 1 10 ≠
      .ok (spec_slp_iatp (slp_tau "SO2") 1 1 10, spec_slp_atp (slp_tau "SO2") 1 1 10) := by
  have h : slp.compute_atp (fun _ => 1) "SO2" 1 10 = .error (.attributeError "SLP") := by
    unfold slp.compute_atp
    rw [if_pos (by norm_num : (5 : ℝ) ≤ 10)]
    rfl
  rw [h]
  exact fun hc => Except.noConfusion hc

/-- Witness for C1 at SO2, unit scaling, th = 10. -/
theorem slp_compute_atp_body_formula_witness :
    slp.compute_atp_body (fun _ => 1) "SO2" 1 10 =
      .ok (spec_slp_iatp (slp_tau "SO2") 1 1 10, spec_slp_atp (slp_tau "SO2") 1 1 10) :=
  slp_compute_atp_body_formula (fun _ => 1) 1 10 "SO2" (Or.inl rfl) (by norm_num)

/-- C5 (code evaluation): at a call whose SO2 regional ERF average is
zero (a zero denominator of the relative-uncertainty terms), the
uncertainty propagation raises no domain error: the embedded code has no
zero test at all, and the call in fact fails earlier with the unrelated
KeyError of C10. -/
theorem zero_denominator_raises_no_domain_error :
    uncertainties.get_potential_uncertainties uncertainties.zero_erf_inputs "SO2"
      "Europe" ["Global"] = .error (.keyError "k_std") := by
  rfl

/-- Counterexample for C6 as stated: in a sustained-then-linear scenario
with magnitudes [150, 100] and one step per segment, the trajectory value
at the last step of segment 1 is 0.5 times the emission mass while the
value at the first step of segment 2 is 0 (the first sample of a linear
segment already lies one full ramp increment into the segment), so the
two boundary samples differ. -/
theorem mixed_scen_emiss_boundary_jump :
    temperature_scenarios.mixed_scen_emiss "BC" 1 [150, 100] ["sustained", "linear"]
      [1, 2] 1 0 = 0.5 ∧
    temperature_scenarios.mixed_scen_emiss "BC" 1 [150, 100] ["sustained", "linear"]
      [1, 2] 1 1 = 0 ∧
    (0.5 : ℝ) ≠ 0 := by
  refine ⟨?_, ?_, by norm_num⟩
  · unfold temperature_scenarios.mixed_scen_emiss temperature_scenarios.seg_tot_mass
      temperature_scenarios.write_segment
    norm_num [List.range_succ, show ("BC" : String) ≠ "CO2" by decide,
      show ("BC" : String) ≠ "SO2" by decide]
  · unfold temperature_scenarios.mixed_scen_emiss temperature_scenarios.seg_tot_mass
      temperature_scenarios.write_segment
    norm_num [List.range_succ, show ("BC" : String) ≠ "CO2" by decide,
      show ("BC" : String) ≠ "SO2" by decide]

/-- C6 (amended): for every pollutant with a constant per-segment mass
(all but CO2, whose mass is renormalised per segment), the trajectory of
the [150, 100], [sustained, linear] scenario has no jump in its
cumulative perturbation level at the segment boundary: the value at the
last step of segment 1 equals the offset level from which the linear
segment 2 departs (the prev_scen_emiss term, sign * mass * (150-100)/100),
while the first discrete sample of segment 2 sits exactly one ramp
increment scen_emiss/(segment steps) beyond that shared level. -/
theorem mixed_scen_emiss_boundary_offset (p : String) (hp : p ≠ "CO2") (mass : ℝ)
    (h1 h2 n : ℕ) (hn : 0 < n) (h1pos : 0 < h1) (hlt : h1 < h2) :
    temperature_scenarios.mixed_scen_emiss p mass [150, 100] ["sustained", "linear"]
      [h1, h2] n (h1 * n - 1) =
      (if p = "SO2" then (-1 : ℝ) else 1) * mass * (150 - 100) / 100 ∧
    temperature_scenarios.mixed_scen_emiss p mass [150, 100] ["sustained", "linear"]
      [h1, h2] n (h1 * n) =
      (if p = "SO2" then (-1 : ℝ) else 1) * mass * (150 - 100) / 100 +
        (if p = "SO2" then (-1 : ℝ) else 1) * mass * (100 - 150) / 100 *
          (1 / (((h2 * n : ℕ) : ℝ) - ((h1 * n : ℕ) : ℝ))) := by
  have hpos : 0 < h1 * n := Nat.mul_pos h1pos hn
  have ht1 : h1 * n - 1 < h1 * n := Nat.sub_lt hpos one_pos
  have hlt2 : h1 * n < h2 * n := (Nat.mul_lt_mul_right hn).mpr hlt
  constructor
  · unfold temperature_scenarios.mixed_scen_emiss temperature_scenarios.seg_tot_mass
      temperature_scenarios.write_segment
    simp only [List.range_succ, List.range_zero, List.nil_append, List.cons_append,
      List.foldl_cons, List.foldl_nil, List.length_cons, List.length_nil, List.getD,
      if_neg hp]
    norm_num
    rw [if_neg (fun h => absurd h.1 (not_le.mpr ht1)), if_pos ⟨h1pos, hn⟩,
      if_neg (by decide : ¬(("sustained" : String) = "linear"))]
  · unfold temperature_scenarios.mixed_scen_emiss temperature_scenarios.seg_tot_mass
      temperature_scenarios.write_segment
    simp only [List.range_succ, List.range_zero, List.nil_append, List.cons_append,
      List.foldl_cons, List.foldl_nil, List.length_cons, List.length_nil, List.getD,
      if_neg hp]
    norm_num
    intro h
    exact absurd hlt2 (not_lt.mpr h)

/-- Witness for C6 at BC, unit mass, horizons 30 and 60, 100 steps per
year. -/
theorem mixed_scen_emiss_boundary_offset_witness :
    temperature_scenarios.mixed_scen_emiss "BC" 1 [150, 100] ["sustained", "linear"]
      [30, 60] 100 (30 * 100 - 1) =
      (if "BC" = "SO2" then (-1 : ℝ) else 1) * 1 * (150 - 100) / 100 :=
  (mixed_scen_emiss_boundary_offset "BC" (by decide) 1 30 60 100 (by norm_num)
    (by norm_num) (by norm_num)).1

/-- C4: for both the single-lifetime compute_app (its component
expressions, fed by the compute_atp sums) and the CO2 compute_app, the
returned totals decompose exactly as slow plus fast (for the integrated
and the pulse potential alike), the slow components equal Cf * k times
the corresponding temperature potential scaled by the regional-to-global
precipitation ratio, and the fast components are independent of the
scaled climate sensitivity (they depend only on the atmospheric radiative
efficiency and the atmospheric decay terms). -/
theorem app_slow_fast_decomposition (tau fp k : ℝ) (c c' : Fin 2 → ℝ)
    (rad_eff rad_eff_a th rr glo : ℝ) :
    (slp.compute_app_sums tau fp k c rad_eff rad_eff_a th rr glo).1 =
      (slp.compute_app_sums tau fp k c rad_eff rad_eff_a th rr glo).2.1 +
      (slp.compute_app_sums tau fp k c rad_eff rad_eff_a th rr glo).2.2.1 ∧
    (slp.compute_app_sums tau fp k c rad_eff rad_eff_a th rr glo).2.2.2.1 =
      (slp.compute_app_sums tau fp k c rad_eff rad_eff_a th rr glo).2.2.2.2.1 +
      (slp.compute_app_sums tau fp k c rad_eff rad_eff_a th rr glo).2.2.2.2.2 ∧
    (slp.compute_app_sums tau fp k c rad_eff rad_eff_a th rr glo).2.1 =
      constants.CF * k * (slp.compute_atp_sums tau c rad_eff th).1 * (rr / glo) ∧
    (slp.compute_app_sums tau fp k c rad_eff rad_eff_a th rr glo).2.2.2.2.1 =
      constants.CF * k * (slp.compute_atp_sums tau c rad_eff th).2 * (rr / glo) ∧
    (slp.compute_app_sums tau fp k c rad_eff rad_eff_a th rr glo).2.2.1 =
      (slp.compute_app_sums tau fp k c' rad_eff rad_eff_a th rr glo).2.2.1 ∧
    (slp.compute_app_sums tau fp k c rad_eff rad_eff_a th rr glo).2.2.2.2.2 =
      (slp.compute_app_sums tau fp k c' rad_eff rad_eff_a th rr glo).2.2.2.2.2 ∧
    (co2.compute_app c rad_eff rad_eff_a th rr glo).1 =
      (co2.compute_app c rad_eff rad_eff_a th rr glo).2.1 +
      (co2.compute_app c rad_eff rad_eff_a th rr glo).2.2.1 ∧
    (co2.compute_app c rad_eff rad_eff_a th rr glo).2.2.2.1 =
      (co2.compute_app c rad_eff rad_eff_a th rr glo).2.2.2.2.1 +
      (co2.compute_app c rad_eff rad_eff_a th rr glo).2.2.2.2.2 ∧
    (co2.compute_app c rad_eff rad_eff_a th rr glo).2.1 =
      constants.CF * co2.K * (co2.compute_atp c rad_eff th).1 * (rr / glo) ∧
    (co2.compute_app c rad_eff rad_eff_a th rr glo).2.2.2.2.1 =
      constants.CF * co2.K * (co2.compute_atp c rad_eff th).2 * (rr / glo) ∧
    (co2.compute_app c rad_eff rad_eff_a th rr glo).2.2.1 =
      (co2.compute_app c' rad_eff rad_eff_a th rr glo).2.2.1 ∧
    (co2.compute_app c rad_eff rad_eff_a th rr glo).2.2.2.2.2 =
      (co2.compute_app c' rad_eff rad_eff_a th rr glo).2.2.2.2.2 := by
  unfold slp.compute_app_sums slp.app_formulas co2.compute_app
  refine ⟨by ring, by ring, rfl, rfl, rfl, rfl, by ring, by ring, rfl, rfl, rfl, rfl⟩

/-- Derivative of the building block c * (1 - exp(-s/c)) of the
closed-form potentials: its slope at x is exp(-x/c). -/
lemma hasDerivAt_c_one_sub_exp (c : ℝ) (hc : c ≠ 0) (x : ℝ) :
    HasDerivAt (fun s => c * (1 - Real.exp (-s / c))) (Real.exp (-x / c)) x := by
  have h1 : HasDerivAt (fun s : ℝ => -s / c) (-1 / c) x := by
    simpa using (hasDerivAt_id x).neg.div_const c
  have h4 := ((hasDerivAt_const x (1 : ℝ)).sub h1.exp).const_mul c
  convert h4 using 1
  field_simp

/-- Derivative of the constant-concentration building block
s - Dj * (1 - exp(-s/Dj)): its slope at x is 1 - exp(-x/Dj). -/
lemma hasDerivAt_id_sub_box (Dj : ℝ) (hD : Dj ≠ 0) (x : ℝ) :
    HasDerivAt (fun s => s - Dj * (1 - Real.exp (-s / Dj)))
      (1 - Real.exp (-x / Dj)) x :=
  (hasDerivAt_id x).sub (hasDerivAt_c_one_sub_exp Dj hD x)

/-- The integrated CO2 potential, as a function of the time horizon, has
the pulse CO2 potential as derivative everywhere. -/
lemma hasDerivAt_co2_iatp (c : Fin 2 → ℝ) (rad_eff x : ℝ) :
    HasDerivAt (fun s => (co2.compute_atp c rad_eff s).1)
      ((co2.compute_atp c rad_eff x).2) x := by
  have hD : ∀ j : Fin 2, constants.D j ≠ 0 := by
    intro j; fin_cases j <;> norm_num [constants.D]
  have hT : ∀ i : Fin 3, co2.TAU i ≠ 0 := by
    intro i; fin_cases i <;> norm_num [co2.TAU]
  have hterm : ∀ j : Fin 2, HasDerivAt
      (fun s => co2.A0 * c j * (s - constants.D j * (1 - Real.exp (-s / constants.D j))) +
        ∑ i : Fin 3, co2.Ai i * co2.TAU i * c j / (co2.TAU i - constants.D j) *
          (co2.TAU i * (1 - Real.exp (-s / co2.TAU i)) -
            constants.D j * (1 - Real.exp (-s / constants.D j))))
      (co2.A0 * c j * (1 - Real.exp (-x / constants.D j)) +
        ∑ i : Fin 3, co2.Ai i * co2.TAU i * c j / (co2.TAU i - constants.D j) *
          (Real.exp (-x / co2.TAU i) - Real.exp (-x / constants.D j))) x := by
    intro j
    have h0 := (hasDerivAt_id_sub_box (constants.D j) (hD j) x).const_mul (co2.A0 * c j)
    have hsum : HasDerivAt
        (fun s => ∑ i : Fin 3, co2.Ai i * co2.TAU i * c j / (co2.TAU i - constants.D j) *
          (co2.TAU i * (1 - Real.exp (-s / co2.TAU i)) -
            constants.D j * (1 - Real.exp (-s / constants.D j))))
        (∑ i : Fin 3, co2.Ai i * co2.TAU i * c j / (co2.TAU i - constants.D j) *
          (Real.exp (-x / co2.TAU i) - Real.exp (-x / constants.D j))) x := by
      apply HasDerivAt.sum
      intro i _
      exact ((hasDerivAt_c_one_sub_exp (co2.TAU i) (hT i) x).sub
        (hasDerivAt_c_one_sub_exp (constants.D j) (hD j) x)).const_mul _
    exact h0.add hsum
  exact (HasDerivAt.sum (fun j _ => hterm j)).const_mul rad_eff

/-- The pulse CO2 potential is continuous in the time horizon. -/
lemma continuous_co2_atp_pulse (c : Fin 2 → ℝ) (rad_eff : ℝ) :
    Continuous (fun s => (co2.compute_atp c rad_eff s).2) := by
  unfold co2.compute_atp
  fun_prop

/-- C2: for CO2, for every radiative efficiency and time horizon, the
pulse potential returned by compute_atp is rad_eff times the 8-term sum
of the claim (2 climate boxes times one a0 term plus three decay terms),
and the integrated potential is the exact time integral of the pulse
expression from 0 to th. -/
theorem co2_compute_atp_closed_forms (c : Fin 2 → ℝ) (rad_eff th : ℝ) :
    (co2.compute_atp c rad_eff th).2 = spec_co2_atp c rad_eff th ∧
    (co2.compute_atp c rad_eff th).1 =
      ∫ s in (0 : ℝ)..th, (co2.compute_atp c rad_eff s).2 := by
  constructor
  · rfl
  · have hderiv : ∀ x ∈ Set.uIcc (0 : ℝ) th,
        HasDerivAt (fun s => (co2.compute_atp c rad_eff s).1)
          ((co2.compute_atp c rad_eff x).2) x :=
      fun x _ => hasDerivAt_co2_iatp c rad_eff x
    have hint : IntervalIntegrable (fun s => (co2.compute_atp c rad_eff s).2)
        MeasureTheory.volume 0 th :=
      (continuous_co2_atp_pulse c rad_eff).intervalIntegrable 0 th
    have h := intervalIntegral.integral_eq_sub_of_hasDerivAt hderiv hint
    have h0 : (co2.compute_atp c rad_eff 0).1 = 0 := by
      unfold co2.compute_atp
      simp
    rw [h, h0, sub_zero]
